import Mathlib

/-!
Shallow embedding of the MeArm controller:
  RaspberryPi/GPIODirect/MeArm.py      (joint model, angle/pulse conversion, limits)
  RaspberryPi/GPIODirect/MeArmServer.py (control stick lease)
  RaspberryPi/I2C/MeArmControl.py      (register bus client, error table)

Angles and timestamps are modelled as exact rationals, pulse widths as
integers.  The code is Python 2, so `int(x)` truncates toward zero,
`round(x, 1)` rounds half away from zero, and `None` compares below every
number.  Exceptions are modelled with an explicit error type; mutations
performed before a raise persist, so stateful operations return the
post-call state alongside the `Except` outcome.
-/

/-- The Python exception outcomes the embedded code can produce. -/
inductive PyErr where
  | valueError
  | attributeError
  | keyError
  | ioError (code : String) (msg : String)
  | httpError400
  | httpError402 (holderName : String) (holderIp : String) (remaining : ℚ)
deriving DecidableEq

/-- Python 2 `int(x)`: truncation toward zero
(`⌊q⌋` for nonnegative `q`, `-⌊-q⌋` i.e. `⌈q⌉` for negative `q`). -/
def pyInt (q : ℚ) : ℤ := if 0 ≤ q then ⌊q⌋ else -⌊-q⌋

/-- Python 2 `round(x, 1)`: round to one decimal, halves away from zero. -/
def pyRound1 (x : ℚ) : ℚ :=
  if 0 ≤ x then ((⌊x * 10 + 1 / 2⌋ : ℤ) : ℚ) / 10
  else -(((⌊-x * 10 + 1 / 2⌋ : ℤ) : ℚ) / 10)

/-- Servo pulse-width calibration held by a `MeArm` instance
(`__init__` parameters `pwMin`, `pwMax`). -/
structure Cal where
  pwMin : ℤ
  pwMax : ℤ
deriving DecidableEq

/-- `self.pwPdeg = (pwMax - pwMin) / 180.0`. -/
def Cal.pwPdeg (c : Cal) : ℚ := ((c.pwMax : ℚ) - (c.pwMin : ℚ)) / 180

/-- The default calibration (`pwMin=550`, `pwMax=2500`). -/
def defaultCal : Cal := ⟨550, 2500⟩

/-- `MeArm.angleToPulse`: `int((a * self.pwPdeg) + self.pwMin)`. -/
def angleToPulse (c : Cal) (a : ℚ) : ℤ := pyInt (a * c.pwPdeg + (c.pwMin : ℚ))

/-- `MeArm.pulseToAngle`: `round((p - self.pwMin) / self.pwPdeg + 0.05, 1)`
(the `0.05` is the precision modifier `pm`). -/
def pulseToAngle (c : Cal) (p : ℤ) : ℚ :=
  pyRound1 (((p : ℚ) - (c.pwMin : ℚ)) / c.pwPdeg + 1 / 20)

/-- One joint definition dictionary (`gpio`, `min`, `max`, `home`, optional
`inv` which defaults to false). -/
structure Joint where
  gpio : ℕ
  min : ℚ
  max : ℚ
  home : ℚ
  inv : Bool
deriving DecidableEq

/-- The pigpio channel state: current servo pulse width per gpio pin
(0 is the unpowered sentinel), plus the log of `set_servo_pulsewidth`
calls performed, oldest first. -/
structure ChanState where
  pw : ℕ → ℤ
  writes : List (ℕ × ℤ)

/-- `self.io.set_servo_pulsewidth(gpio, p)`. -/
def setPW (st : ChanState) (g : ℕ) (p : ℤ) : ChanState :=
  ⟨fun g2 => if g2 = g then p else st.pw g2, st.writes ++ [(g, p)]⟩

/-- `MeArm.getPos`: `None` if the servo is off (pulse width 0), else the
angle (when `deg`) or the raw pulse width. -/
def getPos (c : Cal) (st : ChanState) (j : Joint) (deg : Bool) : Option ℚ :=
  if st.pw j.gpio = 0 then none
  else if deg then some (pulseToAngle c (st.pw j.gpio))
  else some ((st.pw j.gpio : ℚ))

/-- `MeArm.goto`: validates the requested (pre-inversion) angle against the
joint limits, writes the pulse of the possibly reflected angle, and returns
the freshly read-back position.  Out of range raises `ValueError` without
touching the channel. -/
def goto (c : Cal) (j : Joint) (pos : ℚ) (st : ChanState) :
    Except PyErr (Option ℚ) × ChanState :=
  if j.min ≤ pos ∧ pos ≤ j.max then
    let a := if j.inv then j.max - (pos - j.min) else pos
    let st2 := setPW st j.gpio (angleToPulse c a)
    (.ok (getPos c st2 j true), st2)
  else
    (.error .valueError, st)

/-- `MeArm.home`: `self.goto(joint, joint['home'])`. -/
def home (c : Cal) (j : Joint) (st : ChanState) : Except PyErr Unit × ChanState :=
  let r := goto c j j.home st
  (r.1.map fun _ => (), r.2)

/-- `MeArm.homeAll`: homes the listed joints in order; a raise aborts the
loop but keeps the writes already performed. -/
def homeAll (c : Cal) (js : List Joint) (st : ChanState) :
    Except PyErr Unit × ChanState :=
  match js with
  | [] => (.ok (), st)
  | j :: rest =>
    match home c j st with
    | (.error e, st1) => (.error e, st1)
    | (.ok _, st1) => homeAll c rest st1

/-- The four joint dictionaries plus calibration held by a `MeArm` instance. -/
structure Arm where
  base : Joint
  shoulder : Joint
  wrist : Joint
  grip : Joint
  cal : Cal

/-- `MeArm.__init__`: stores the joints and calibration and immediately runs
`homeAll` on `[base, shoulder, wrist, grip]` against the pre-existing
channel state `st0`. -/
def meArmInit (base shoulder wrist grip : Joint) (pwMin pwMax : ℤ)
    (st0 : ChanState) : Except PyErr Unit × Arm × ChanState :=
  let c : Cal := ⟨pwMin, pwMax⟩
  let r := homeAll c [base, shoulder, wrist, grip] st0
  (r.1, ⟨base, shoulder, wrist, grip, c⟩, r.2)

/-- CPython 2 `<` with a possibly-`None` left operand: `None` sorts below
every number, so `None < x` is true. -/
def pyLtNum : Option ℚ → ℚ → Bool
  | none, _ => true
  | some a, b => decide (a < b)

/-- CPython 2 `>` with a possibly-`None` left operand: `None` sorts below
every number, so `None > x` is false. -/
def pyGtNum : Option ℚ → ℚ → Bool
  | none, _ => false
  | some a, b => decide (b < a)

/-- `MeArm.setLimit`, the `minL` block (lines 154-168).  The closing
parenthesis of both raise statements sits before `.format`, so Python calls
`.format` on the `ValueError` instance itself and an invalid minimum
actually raises `AttributeError`, not `ValueError`. -/
def setLimitMin (c : Cal) (j : Joint) (minL maxL : Option ℚ) (st : ChanState) :
    Except PyErr Unit × Joint × ChanState :=
  match minL with
  | none => (.ok (), j, st)
  | some m =>
    let mx := maxL.getD j.max
    if m > mx then (.error .attributeError, j, st)
    else if m < 0 then (.error .attributeError, j, st)
    else
      let j1 : Joint := { j with min := m }
      if pyLtNum (getPos c st j1 true) m then
        let r := goto c j1 m st
        (r.1.map fun _ => (), j1, r.2)
      else (.ok (), j1, st)

/-- `MeArm.setLimit`, the `maxL` block (lines 169-183); these raises have the
parenthesis in the right place and do raise `ValueError`. -/
def setLimitMax (c : Cal) (j : Joint) (maxL : Option ℚ) (st : ChanState) :
    Except PyErr Unit × Joint × ChanState :=
  match maxL with
  | none => (.ok (), j, st)
  | some mxv =>
    if mxv < j.min then (.error .valueError, j, st)
    else if mxv > 180 then (.error .valueError, j, st)
    else
      let j2 : Joint := { j with max := mxv }
      if pyGtNum (getPos c st j2 true) mxv then
        let r := goto c j2 mxv st
        (r.1.map fun _ => (), j2, r.2)
      else (.ok (), j2, st)

/-- `MeArm.setLimit`: the min block, then (if it did not raise) the max
block on the updated joint. -/
def setLimit (c : Cal) (j : Joint) (minL maxL : Option ℚ) (st : ChanState) :
    Except PyErr Unit × Joint × ChanState :=
  match setLimitMin c j minL maxL st with
  | (.error e, j1, st1) => (.error e, j1, st1)
  | (.ok _, j1, st1) => setLimitMax c j1 maxL st1

/-- The actuation-facing home angle of a joint: `home`, reflected about the
limit midpoint when the joint is inverted. -/
def homeActuation (j : Joint) : ℚ :=
  if j.inv then j.max - (j.home - j.min) else j.home

/-- Python 2 `str.strip()`: remove leading and trailing whitespace. -/
def pyStrip (s : String) : String :=
  ⟨((s.data.dropWhile Char.isWhitespace).reverse.dropWhile Char.isWhitespace).reverse⟩

/-- The `cherrypy.controlStick` dictionary while someone holds the stick. -/
structure Stick where
  sid : String
  tmout : ℚ
  name : String
  ip : String
deriving DecidableEq

/-- `CONTROL_STICK_TIMEOUT`: the lease duration in seconds. -/
def CONTROL_STICK_TIMEOUT : ℚ := 60

/-- `checkControlExpiration`: clears the stick when the current time has
passed its timeout (strictly). -/
def checkControlExpiration (now : ℚ) (st : Option Stick) : Option Stick :=
  match st with
  | none => none
  | some s => if now > s.tmout then none else some s

/-- `controlStickTool`: the before-handler run on every request.  `sid` is
the caller session's id (if the session has one), `now` the request time.
Checks expiration, then either reports no control (raising HTTP 400 when
`noControlError`), or refreshes the holder's timeout and reports control.
Returns the new stick state and the `request.inControl` flag. -/
def controlStickTool (noControlError : Bool) (sid : Option String) (now : ℚ)
    (st : Option Stick) : Except PyErr (Option Stick × Bool) :=
  match checkControlExpiration now st with
  | none => if noControlError then .error .httpError400 else .ok (none, false)
  | some s =>
    if some s.sid ≠ sid then
      if noControlError then .error .httpError400 else .ok (some s, false)
    else
      .ok (some { s with tmout := now + CONTROL_STICK_TIMEOUT }, true)

/-- `ControlStick.GET` (the takeStick endpoint), tool phase included
(`noControlError` is false on this endpoint).  `sid0` is the caller
session's id if it has one, `fresh` the uuid generated when it has none,
`name` the optional name argument (`None` when absent), `ip` the remote
address.  Line 302 calls `name.strip()` before any `None` check, so an
absent name raises `AttributeError`.  Returns the outcome, the stick state
after the call, and the caller session's id after the call. -/
def controlStickGET (sid0 : Option String) (fresh : String) (now : ℚ)
    (name : Option String) (ip : String) (st : Option Stick) :
    Except PyErr Unit × Option Stick × Option String :=
  match controlStickTool false sid0 now st with
  | .error e => (.error e, st, sid0)
  | .ok (st1, inCtrl) =>
    match name with
    | none => (.error .attributeError, st1, sid0)
    | some n =>
      let n1 : Option String := if pyStrip n = "" then none else some (pyStrip n)
      match st1 with
      | some s =>
        if inCtrl then (.ok (), some s, sid0)
        else (.error (.httpError402 s.name s.ip (s.tmout - now)), some s, sid0)
      | none =>
        let sid1 := sid0.getD fresh
        (.ok (), some ⟨sid1, now + CONTROL_STICK_TIMEOUT, n1.getD "Anonymous", ip⟩,
         some sid1)

/-- One smbus operation performed by `MeArmI2C`. -/
inductive BusOp where
  | writeByte (addr val : ℕ)
  | writeByteData (addr reg val : ℕ)
  | writeBlockData (addr reg : ℕ) (data : List ℕ)
  | readByte (addr : ℕ)
  | settleDelay
deriving DecidableEq

/-- The smbus state: the bytes the attached device will hand to successive
`read_byte` calls, plus the log of operations performed, oldest first. -/
structure BusState where
  reads : List ℕ
  log : List BusOp

/-- `self.bus.write_byte(addr, v)`. -/
def busWriteByte (b : BusState) (addr v : ℕ) : BusState :=
  { b with log := b.log ++ [.writeByte addr v] }

/-- `self.bus.write_byte_data(addr, reg, v)`. -/
def busWriteByteData (b : BusState) (addr reg v : ℕ) : BusState :=
  { b with log := b.log ++ [.writeByteData addr reg v] }

/-- `self.bus.read_byte(addr)`: hands out the next device byte (0 when the
model's queue is exhausted). -/
def busReadByte (b : BusState) (addr : ℕ) : ℕ × BusState :=
  match b.reads with
  | [] => (0, { b with log := b.log ++ [.readByte addr] })
  | v :: rest => (v, ⟨rest, b.log ++ [.readByte addr]⟩)

/-- `self._settleDelay()`. -/
def busSettle (b : BusState) : BusState :=
  { b with log := b.log ++ [.settleDelay] }

/-- `MeArmI2C.RegErr = ord('e')`. -/
def RegErr : ℕ := 101

/-- `MeArmI2C.OpErrors`: the fixed error-code table, keyed on single bit
flags `1 << 0` through `1 << 5`. -/
def OpErrors : List (ℕ × String × String) :=
  [(1, ("eDLen", "Data length - too much or too little data")),
   (2, ("eNoReg", "Invalid register error")),
   (4, ("ePLimit", "Position to set is out of poistion limits")),
   (8, ("eSVLimit", "Sub value is out of min/max limits")),
   (16, ("eSVRange", "Sub value is out of allowed range")),
   (32, ("eInvSubVal", "Invalid sub-value indicator"))]

/-- The Python dictionary lookup `self.OpErrors[v]`: `none` models the
`KeyError` case. -/
def opErrorsGet (v : ℕ) : Option (String × String) :=
  (OpErrors.find? fun p => p.1 == v).map Prod.snd

/-- `MeArmI2C.getError`: writes the error register address, settles, reads
the error byte; a non-zero byte is looked up in `OpErrors` and raised as
`IOError` — or, when the byte is not a key of the table (any combination
of several flags, or an unknown bit), the lookup itself raises `KeyError`. -/
def getError (addr : ℕ) (b : BusState) : Except PyErr Unit × BusState :=
  let b2 := busSettle (busWriteByte b addr RegErr)
  let v := (busReadByte b2 addr).1
  let b3 := (busReadByte b2 addr).2
  if v ≠ 0 then
    match opErrorsGet v with
    | some e => (.error (.ioError e.1 e.2), b3)
    | none => (.error .keyError, b3)
  else (.ok (), b3)

/-- `MeArmI2C.getRegister`: write the register address, settle, read the
value, then check the error register; the read value is returned only when
the error check passes. -/
def getRegister (addr reg : ℕ) (b : BusState) : Except PyErr ℕ × BusState :=
  let b2 := busSettle (busWriteByte b addr reg)
  let v := (busReadByte b2 addr).1
  let b3 := (busReadByte b2 addr).2
  match getError addr b3 with
  | (.error e, b4) => (.error e, b4)
  | (.ok _, b4) => (.ok v, b4)

/-- `MeArmI2C.setRegister`: write the register and value, settle, then
check the error register. -/
def setRegister (addr reg val : ℕ) (b : BusState) : Except PyErr Unit × BusState :=
  let b2 := busSettle (busWriteByteData b addr reg val)
  getError addr b2

/-- C1: for every joint and every requested position outside the joint's
current limits, `goto` fails with `ValueError` (the spec's
`OutOfRangeError`), performs no write to the actuation channel, and the
observed joint position is unchanged; the check is on the requested
pre-inversion angle. -/
theorem goto_out_of_range (c : Cal) (j : Joint) (pos : ℚ) (st : ChanState)
    (h : ¬ (j.min ≤ pos ∧ pos ≤ j.max)) :
    goto c j pos st = (.error .valueError, st) ∧
    getPos c (goto c j pos st).2 j true = getPos c st j true := by
  have h1 : goto c j pos st = (.error .valueError, st) := by
    unfold goto
    rw [if_neg h]
  exact ⟨h1, by rw [h1]⟩

/-- Witness for C1 at the shoulder joint, target 141 with limits 50-140. -/
theorem goto_out_of_range_witness :
    ¬ (((⟨17, 50, 140, 90, false⟩ : Joint).min ≤ (141 : ℚ)) ∧
        ((141 : ℚ) ≤ (⟨17, 50, 140, 90, false⟩ : Joint).max)) ∧
    goto defaultCal ⟨17, 50, 140, 90, false⟩ 141 ⟨fun _ => 0, []⟩ =
      (.error .valueError, ⟨fun _ => 0, []⟩) :=
  ⟨by decide,
   (goto_out_of_range defaultCal ⟨17, 50, 140, 90, false⟩ 141 ⟨fun _ => 0, []⟩
      (by decide)).1⟩

/-- C2: for every inverted joint and in-range target `pos`, `goto` writes the
actuation pulse computed from the reflected angle `max - (pos - min)`; and
concretely an inverted joint with limits 50-140 written with `goto 90`
programs the same pulse as a non-inverted one written with `goto 100`. -/
theorem goto_inverted_reflects (c : Cal) (j : Joint) (pos : ℚ) (st : ChanState)
    (hinv : j.inv = true) (h1 : j.min ≤ pos) (h2 : pos ≤ j.max) :
    goto c j pos st =
      (.ok (getPos c (setPW st j.gpio (angleToPulse c (j.max - (pos - j.min)))) j true),
       setPW st j.gpio (angleToPulse c (j.max - (pos - j.min)))) ∧
    (goto defaultCal ⟨4, 50, 140, 90, true⟩ 90 ⟨fun _ => 0, []⟩).2.pw 4 =
      (goto defaultCal ⟨4, 50, 140, 90, false⟩ 100 ⟨fun _ => 0, []⟩).2.pw 4 := by
  constructor
  · unfold goto
    rw [if_pos ⟨h1, h2⟩, hinv]
    simp
  · norm_num [goto, setPW, angleToPulse, pyInt, Cal.pwPdeg, defaultCal]

/-- Witness for C2: the inverted shoulder-like joint at target 90. -/
theorem goto_inverted_reflects_witness :
    ((⟨4, 50, 140, 90, true⟩ : Joint).inv = true ∧
      (⟨4, 50, 140, 90, true⟩ : Joint).min ≤ (90 : ℚ) ∧
      (90 : ℚ) ≤ (⟨4, 50, 140, 90, true⟩ : Joint).max) ∧
    (goto defaultCal ⟨4, 50, 140, 90, true⟩ 90 ⟨fun _ => 0, []⟩).2.pw 4 =
      (goto defaultCal ⟨4, 50, 140, 90, false⟩ 100 ⟨fun _ => 0, []⟩).2.pw 4 :=
  ⟨⟨rfl, by norm_num, by norm_num⟩,
   (goto_inverted_reflects defaultCal ⟨4, 50, 140, 90, true⟩ 90 ⟨fun _ => 0, []⟩
      rfl (by norm_num) (by norm_num)).2⟩

/-- For nonnegative arguments Python truncation agrees with the floor. -/
theorem pyInt_eq_floor (q : ℚ) (hq : 0 ≤ q) : pyInt q = ⌊q⌋ := by
  unfold pyInt
  rw [if_pos hq]

/-- C3: under the default calibration, converting any angle in [0, 180] to a
pulse with `angleToPulse` and back with `pulseToAngle` yields a value within
0.1 degree of the original angle. -/
theorem pulse_roundtrip_within_tenth (a : ℚ) (h0 : 0 ≤ a) (h1 : a ≤ 180) :
    |pulseToAngle defaultCal (angleToPulse defaultCal a) - a| ≤ 1 / 10 := by
  have hr : defaultCal.pwPdeg = 65 / 6 := by norm_num [Cal.pwPdeg, defaultCal]
  have hx0 : (0 : ℚ) ≤ a * (65 / 6) + 550 := by nlinarith
  have hap : angleToPulse defaultCal a = ⌊a * (65 / 6) + 550⌋ := by
    unfold angleToPulse
    rw [show a * defaultCal.pwPdeg + ((defaultCal.pwMin : ℤ) : ℚ) = a * (65 / 6) + 550 by
      rw [hr]; norm_num [defaultCal]]
    exact pyInt_eq_floor _ hx0
  have hF1 : ((⌊a * (65 / 6) + 550⌋ : ℤ) : ℚ) ≤ a * (65 / 6) + 550 := Int.floor_le _
  have hF2 : a * (65 / 6) + 550 < ((⌊a * (65 / 6) + 550⌋ : ℤ) : ℚ) + 1 :=
    Int.lt_floor_add_one _
  have h550 : (550 : ℚ) ≤ ((⌊a * (65 / 6) + 550⌋ : ℤ) : ℚ) := by
    have h5 : (550 : ℤ) ≤ ⌊a * (65 / 6) + 550⌋ := by
      rw [Int.le_floor]
      push_cast
      nlinarith
    exact_mod_cast h5
  have hy0 : (0 : ℚ) ≤ (((⌊a * (65 / 6) + 550⌋ : ℤ) : ℚ) - 550) * (6 / 65) + 1 / 20 := by
    nlinarith
  have hpt : pulseToAngle defaultCal ⌊a * (65 / 6) + 550⌋ =
      ((⌊((((⌊a * (65 / 6) + 550⌋ : ℤ) : ℚ) - 550) * (6 / 65) + 1 / 20) * 10 + 1 / 2⌋ : ℤ) : ℚ) / 10 := by
    unfold pulseToAngle
    rw [show (((⌊a * (65 / 6) + 550⌋ : ℤ) : ℚ) - ((defaultCal.pwMin : ℤ) : ℚ)) / defaultCal.pwPdeg
            + 1 / 20
          = (((⌊a * (65 / 6) + 550⌋ : ℤ) : ℚ) - 550) * (6 / 65) + 1 / 20 by
      rw [hr]; simp only [defaultCal]; push_cast; ring]
    unfold pyRound1
    rw [if_pos hy0]
  rw [hap, hpt, abs_le]
  have hG1 := Int.floor_le (((((⌊a * (65 / 6) + 550⌋ : ℤ) : ℚ) - 550) * (6 / 65) + 1 / 20) * 10 + 1 / 2)
  have hG2 := Int.lt_floor_add_one (((((⌊a * (65 / 6) + 550⌋ : ℤ) : ℚ) - 550) * (6 / 65) + 1 / 20) * 10 + 1 / 2)
  constructor <;> nlinarith [hF1, hF2, hG1, hG2]

/-- Witness for C3 at angle 90. -/
theorem pulse_roundtrip_within_tenth_witness :
    (0 : ℚ) ≤ 90 ∧ (90 : ℚ) ≤ 180 ∧
    |pulseToAngle defaultCal (angleToPulse defaultCal 90) - 90| ≤ 1 / 10 :=
  ⟨by norm_num, by norm_num, pulse_roundtrip_within_tenth 90 (by norm_num) (by norm_num)⟩

/-- C6 (amended): a valid new minimum that also does not exceed the joint's
pre-call maximum is stored, and the joint is moved to it when the current
position lies below it (the move writes the pulse of the new minimum, or of
the old maximum for an inverted joint, by the reflection law); concretely,
`setLimit(min=60)` on a joint at position 50 with limits 40-140 succeeds,
stores `min=60` and programs the pulse of 60. -/
theorem setLimit_min_valid (c : Cal) (j : Joint) (m : ℚ) (maxL : Option ℚ)
    (st : ChanState) (h0 : 0 ≤ m) (h1 : m ≤ maxL.getD j.max) (h2 : m ≤ j.max) :
    setLimitMin c j (some m) maxL st =
      (.ok (), { j with min := m },
        if pyLtNum (getPos c st { j with min := m } true) m then
          setPW st j.gpio (angleToPulse c (if j.inv then j.max else m))
        else st) ∧
    (setLimit defaultCal ⟨17, 40, 140, 90, false⟩ (some 60) none
        ⟨fun g2 => if g2 = 17 then 1091 else 0, []⟩).1 = .ok () ∧
    (setLimit defaultCal ⟨17, 40, 140, 90, false⟩ (some 60) none
        ⟨fun g2 => if g2 = 17 then 1091 else 0, []⟩).2.1.min = 60 ∧
    (setLimit defaultCal ⟨17, 40, 140, 90, false⟩ (some 60) none
        ⟨fun g2 => if g2 = 17 then 1091 else 0, []⟩).2.2.pw 17 =
      angleToPulse defaultCal 60 := by
  refine ⟨?_, ?_, ?_, ?_⟩
  · simp only [setLimitMin]
    rw [if_neg (not_lt.mpr h1), if_neg (not_lt.mpr h0)]
    split
    · unfold goto
      rw [if_pos ⟨le_refl m, h2⟩]
      simp [Except.map, sub_self, sub_zero]
    · rfl
  · norm_num [setLimit, setLimitMin, setLimitMax, getPos, pulseToAngle, pyRound1,
      pyLtNum, goto, setPW, angleToPulse, pyInt, Cal.pwPdeg, defaultCal, Except.map]
  · norm_num [setLimit, setLimitMin, setLimitMax, getPos, pulseToAngle, pyRound1,
      pyLtNum, goto, setPW, angleToPulse, pyInt, Cal.pwPdeg, defaultCal, Except.map]
  · norm_num [setLimit, setLimitMin, setLimitMax, getPos, pulseToAngle, pyRound1,
      pyLtNum, goto, setPW, angleToPulse, pyInt, Cal.pwPdeg, defaultCal, Except.map]

/-- Witness for C6 (amended) at the concrete joint 40-140 positioned at 50. -/
theorem setLimit_min_valid_witness :
    ((0 : ℚ) ≤ 60 ∧ (60 : ℚ) ≤ (Option.getD none (⟨17, 40, 140, 90, false⟩ : Joint).max) ∧
      (60 : ℚ) ≤ (⟨17, 40, 140, 90, false⟩ : Joint).max) ∧
    (setLimit defaultCal ⟨17, 40, 140, 90, false⟩ (some 60) none
        ⟨fun g2 => if g2 = 17 then 1091 else 0, []⟩).2.2.pw 17 =
      angleToPulse defaultCal 60 :=
  ⟨⟨by norm_num, by norm_num [Option.getD], by norm_num⟩,
   (setLimit_min_valid defaultCal ⟨17, 40, 140, 90, false⟩ 60 none
      ⟨fun g2 => if g2 = 17 then 1091 else 0, []⟩ (by norm_num)
      (by norm_num [Option.getD]) (by norm_num)).2.2.2⟩

/-- Counterexample to C6 as stated: with `setLimit(min=120, max=150)` on a
joint with limits 40-100 positioned at 50, the new minimum 120 is valid
(0 <= 120 <= effective max 150) and the position lies below it, yet the
auto-reposition is range-checked against the stale old maximum 100, so no
move is issued and `setLimit` raises instead. -/
theorem setLimit_min_move_cex :
    ((0 : ℚ) ≤ 120 ∧ (120 : ℚ) ≤ Option.getD (some 150) (⟨17, 40, 100, 90, false⟩ : Joint).max) ∧
    pyLtNum (getPos defaultCal ⟨fun g2 => if g2 = 17 then 1091 else 0, []⟩
        ⟨17, 40, 100, 90, false⟩ true) 120 = true ∧
    (setLimit defaultCal ⟨17, 40, 100, 90, false⟩ (some 120) (some 150)
        ⟨fun g2 => if g2 = 17 then 1091 else 0, []⟩).1 = .error .valueError ∧
    (setLimit defaultCal ⟨17, 40, 100, 90, false⟩ (some 120) (some 150)
        ⟨fun g2 => if g2 = 17 then 1091 else 0, []⟩).2.2.writes = [] := by
  refine ⟨⟨by norm_num, by norm_num [Option.getD]⟩, ?_, ?_, ?_⟩
  · norm_num [getPos, pulseToAngle, pyRound1, pyLtNum, defaultCal, Cal.pwPdeg]
  · norm_num [setLimit, setLimitMin, setLimitMax, getPos, pulseToAngle, pyRound1,
      pyLtNum, goto, setPW, angleToPulse, pyInt, Cal.pwPdeg, defaultCal, Except.map]
  · norm_num [setLimit, setLimitMin, setLimitMax, getPos, pulseToAngle, pyRound1,
      pyLtNum, goto, setPW, angleToPulse, pyInt, Cal.pwPdeg, defaultCal, Except.map]

/-- C7: `setLimit(min=160)` on a joint with `max=140` (and `setLimit(min=-5)`
on the same joint) does fail and leaves limits, channel and write log
untouched, but the exception escaping is `AttributeError` — the raise
statement's closing parenthesis sits before `.format`, so `.format` is
called on the `ValueError` instance — not the `ValueError` the spec's
`InvalidLimitError` stands for. -/
theorem setLimit_invalid_min_attribute_error :
    (setLimit defaultCal ⟨17, 50, 140, 90, false⟩ (some 160) none
        ⟨fun g2 => if g2 = 17 then 1525 else 0, []⟩).1 = .error .attributeError ∧
    (setLimit defaultCal ⟨17, 50, 140, 90, false⟩ (some 160) none
        ⟨fun g2 => if g2 = 17 then 1525 else 0, []⟩).2.1 = ⟨17, 50, 140, 90, false⟩ ∧
    (setLimit defaultCal ⟨17, 50, 140, 90, false⟩ (some 160) none
        ⟨fun g2 => if g2 = 17 then 1525 else 0, []⟩).2.2.writes = [] ∧
    (setLimit defaultCal ⟨17, 50, 140, 90, false⟩ (some 160) none
        ⟨fun g2 => if g2 = 17 then 1525 else 0, []⟩).2.2.pw 17 = 1525 ∧
    (setLimit defaultCal ⟨17, 50, 140, 90, false⟩ (some (-5)) none
        ⟨fun g2 => if g2 = 17 then 1525 else 0, []⟩).1 = .error .attributeError ∧
    (setLimit defaultCal ⟨17, 50, 140, 90, false⟩ (some (-5)) none
        ⟨fun g2 => if g2 = 17 then 1525 else 0, []⟩).2.1 = ⟨17, 50, 140, 90, false⟩ ∧
    (Except.error PyErr.attributeError : Except PyErr Unit) ≠ .error .valueError := by
  refine ⟨?_, ?_, ?_, ?_, ?_, ?_, by simp⟩ <;>
    norm_num [setLimit, setLimitMin, setLimitMax, Option.getD]

/-- C10: when the channel reports the unpowered sentinel (`getPos` is
`None`), a valid min-only `setLimit` still issues the move to the new
minimum, because `None` compares below every number in Python 2, while a
valid max-only `setLimit` issues no move, because `None` never compares
above a number. -/
theorem setLimit_unpowered (c : Cal) (j : Joint) (m mx : ℚ) (st : ChanState)
    (hpw : st.pw j.gpio = 0) (h0 : 0 ≤ m) (h2 : m ≤ j.max)
    (h3 : j.min ≤ mx) (h4 : mx ≤ 180) :
    (∀ q : ℚ, pyLtNum none q = true ∧ pyGtNum none q = false) ∧
    (setLimit c j (some m) none st).1 = .ok () ∧
    (setLimit c j (some m) none st).2.2.writes =
      st.writes ++ [(j.gpio, angleToPulse c (if j.inv then j.max else m))] ∧
    setLimit c j none (some mx) st = (.ok (), { j with max := mx }, st) := by
  have hpos : getPos c st ({ j with min := m } : Joint) true = none := by
    unfold getPos
    rw [if_pos hpw]
  have hpos2 : getPos c st ({ j with max := mx } : Joint) true = none := by
    unfold getPos
    rw [if_pos hpw]
  have hmin : setLimitMin c j (some m) none st =
      (.ok (), { j with min := m },
        setPW st j.gpio (angleToPulse c (if j.inv then j.max else m))) := by
    simp only [setLimitMin, Option.getD]
    rw [if_neg (not_lt.mpr h2), if_neg (not_lt.mpr h0), hpos]
    simp only [pyLtNum, eq_self_iff_true, if_true]
    unfold goto
    rw [if_pos ⟨le_refl m, h2⟩]
    simp [Except.map, sub_self, sub_zero]
  refine ⟨fun q => ?_, ?_, ?_, ?_⟩
  · exact ⟨rfl, rfl⟩
  · simp only [setLimit, hmin, setLimitMax]
  · simp only [setLimit, hmin, setLimitMax, setPW]
  · simp only [setLimit, setLimitMin, setLimitMax]
    rw [if_neg (not_lt.mpr h3), if_neg (not_lt.mpr h4), hpos2]
    simp [pyGtNum]

/-- Witness for C10 at the grip joint with limits 80-100, all servos off. -/
theorem setLimit_unpowered_witness :
    ((⟨fun _ => 0, []⟩ : ChanState).pw 22 = 0 ∧ (0 : ℚ) ≤ 85 ∧
      (85 : ℚ) ≤ (⟨22, 80, 100, 90, false⟩ : Joint).max ∧
      (⟨22, 80, 100, 90, false⟩ : Joint).min ≤ (95 : ℚ) ∧ (95 : ℚ) ≤ 180) ∧
    (setLimit defaultCal ⟨22, 80, 100, 90, false⟩ (some 85) none ⟨fun _ => 0, []⟩).2.2.writes =
      ([] : List (ℕ × ℤ)) ++ [(22, angleToPulse defaultCal (if false then (100 : ℚ) else 85))] ∧
    setLimit defaultCal ⟨22, 80, 100, 90, false⟩ none (some 95) ⟨fun _ => 0, []⟩ =
      (.ok (), ⟨22, 80, 95, 90, false⟩, ⟨fun _ => 0, []⟩) :=
  ⟨⟨rfl, by norm_num, by norm_num, by norm_num, by norm_num⟩,
   (setLimit_unpowered defaultCal ⟨22, 80, 100, 90, false⟩ 85 95 ⟨fun _ => 0, []⟩
      rfl (by norm_num) (by norm_num) (by norm_num) (by norm_num)).2.2.1,
   (setLimit_unpowered defaultCal ⟨22, 80, 100, 90, false⟩ 85 95 ⟨fun _ => 0, []⟩
      rfl (by norm_num) (by norm_num) (by norm_num) (by norm_num)).2.2.2⟩

/-- C9: when every home angle is within its joint's limits, constructing a
`MeArm` succeeds and, as a side effect of `__init__` calling `homeAll`,
commands all four joints to their home actuation, in the order base,
shoulder, wrist, grip. -/
theorem meArmInit_homes_all (b s w g : Joint) (pwMin pwMax : ℤ) (st0 : ChanState)
    (hb1 : b.min ≤ b.home) (hb2 : b.home ≤ b.max)
    (hs1 : s.min ≤ s.home) (hs2 : s.home ≤ s.max)
    (hw1 : w.min ≤ w.home) (hw2 : w.home ≤ w.max)
    (hg1 : g.min ≤ g.home) (hg2 : g.home ≤ g.max) :
    (meArmInit b s w g pwMin pwMax st0).1 = .ok () ∧
    (meArmInit b s w g pwMin pwMax st0).2.2.writes = st0.writes ++
      [(b.gpio, angleToPulse ⟨pwMin, pwMax⟩ (homeActuation b)),
       (s.gpio, angleToPulse ⟨pwMin, pwMax⟩ (homeActuation s)),
       (w.gpio, angleToPulse ⟨pwMin, pwMax⟩ (homeActuation w)),
       (g.gpio, angleToPulse ⟨pwMin, pwMax⟩ (homeActuation g))] := by
  have hone : ∀ (j : Joint) (st : ChanState), j.min ≤ j.home → j.home ≤ j.max →
      home ⟨pwMin, pwMax⟩ j st =
        (.ok (), setPW st j.gpio (angleToPulse ⟨pwMin, pwMax⟩ (homeActuation j))) := by
    intro j st hj1 hj2
    unfold home goto homeActuation
    rw [if_pos ⟨hj1, hj2⟩]
    simp [Except.map]
  constructor
  · simp only [meArmInit, homeAll, hone b _ hb1 hb2, hone s _ hs1 hs2,
      hone w _ hw1 hw2, hone g _ hg1 hg2]
  · simp only [meArmInit, homeAll, hone b _ hb1 hb2, hone s _ hs1 hs2,
      hone w _ hw1 hw2, hone g _ hg1 hg2, setPW, List.append_assoc,
      List.cons_append, List.nil_append]

/-- Witness for C9 at the default `armDef` joints and calibration. -/
theorem meArmInit_homes_all_witness :
    ((0 : ℚ) ≤ 90 ∧ (90 : ℚ) ≤ 180 ∧ (50 : ℚ) ≤ 90 ∧ (90 : ℚ) ≤ 140 ∧
      (80 : ℚ) ≤ 90 ∧ (90 : ℚ) ≤ 100) ∧
    (meArmInit ⟨4, 0, 180, 90, true⟩ ⟨17, 50, 140, 90, false⟩ ⟨27, 50, 140, 90, false⟩
        ⟨22, 80, 100, 90, false⟩ 550 2500 ⟨fun _ => 0, []⟩).1 = .ok () ∧
    (meArmInit ⟨4, 0, 180, 90, true⟩ ⟨17, 50, 140, 90, false⟩ ⟨27, 50, 140, 90, false⟩
        ⟨22, 80, 100, 90, false⟩ 550 2500 ⟨fun _ => 0, []⟩).2.2.writes =
      ([] : List (ℕ × ℤ)) ++
        [(4, angleToPulse ⟨550, 2500⟩ (homeActuation ⟨4, 0, 180, 90, true⟩)),
         (17, angleToPulse ⟨550, 2500⟩ (homeActuation ⟨17, 50, 140, 90, false⟩)),
         (27, angleToPulse ⟨550, 2500⟩ (homeActuation ⟨27, 50, 140, 90, false⟩)),
         (22, angleToPulse ⟨550, 2500⟩ (homeActuation ⟨22, 80, 100, 90, false⟩))] :=
  ⟨⟨by norm_num, by norm_num, by norm_num, by norm_num, by norm_num, by norm_num⟩,
   (meArmInit_homes_all ⟨4, 0, 180, 90, true⟩ ⟨17, 50, 140, 90, false⟩
      ⟨27, 50, 140, 90, false⟩ ⟨22, 80, 100, 90, false⟩ 550 2500 ⟨fun _ => 0, []⟩
      (by norm_num) (by norm_num) (by norm_num) (by norm_num)
      (by norm_num) (by norm_num) (by norm_num) (by norm_num)).1,
   (meArmInit_homes_all ⟨4, 0, 180, 90, true⟩ ⟨17, 50, 140, 90, false⟩
      ⟨27, 50, 140, 90, false⟩ ⟨22, 80, 100, 90, false⟩ 550 2500 ⟨fun _ => 0, []⟩
      (by norm_num) (by norm_num) (by norm_num) (by norm_num)
      (by norm_num) (by norm_num) (by norm_num) (by norm_num)).2⟩

/-- C4: the control-stick lease follows the specified state machine with
lease duration 60: acquiring when unheld grants and stamps `now + 60`;
acquiring when the held lease has lapsed (`now` strictly past its timeout)
grants the same way; acquiring against a different live holder is denied,
reporting the holder's name, address and remaining seconds, without
mutating the lease; a tool pass (touch) by the holder after expiry reports
no control; and concretely A acquires at t=0, B is denied at t=10 with 50
seconds remaining, A's touch at t=70 is false, and B acquires at t=70. -/
theorem controlStick_lease_machine :
    (∀ (sid0 : Option String) (fresh : String) (now : ℚ) (nm ip : String),
      controlStickGET sid0 fresh now (some nm) ip none =
        (.ok (), some ⟨sid0.getD fresh, now + 60,
          if pyStrip nm = "" then "Anonymous" else pyStrip nm, ip⟩,
         some (sid0.getD fresh))) ∧
    (∀ (sid0 : Option String) (fresh : String) (now : ℚ) (nm ip : String) (s : Stick),
      s.tmout < now →
      controlStickGET sid0 fresh now (some nm) ip (some s) =
        (.ok (), some ⟨sid0.getD fresh, now + 60,
          if pyStrip nm = "" then "Anonymous" else pyStrip nm, ip⟩,
         some (sid0.getD fresh))) ∧
    (∀ (sid0 : Option String) (fresh : String) (now : ℚ) (nm ip : String) (s : Stick),
      now ≤ s.tmout → sid0 ≠ some s.sid →
      controlStickGET sid0 fresh now (some nm) ip (some s) =
        (.error (.httpError402 s.name s.ip (s.tmout - now)), some s, sid0)) ∧
    (∀ (s : Stick) (now : ℚ), s.tmout < now →
      controlStickTool false (some s.sid) now (some s) = .ok (none, false)) ∧
    controlStickGET (some "alice") "u1" 0 (some "Alice") "ipA" none =
      (.ok (), some ⟨"alice", 60, "Alice", "ipA"⟩, some "alice") ∧
    controlStickGET (some "bob") "u2" 10 (some "Bob") "ipB"
        (some ⟨"alice", 60, "Alice", "ipA"⟩) =
      (.error (.httpError402 "Alice" "ipA" 50), some ⟨"alice", 60, "Alice", "ipA"⟩,
       some "bob") ∧
    controlStickTool false (some "alice") 70 (some ⟨"alice", 60, "Alice", "ipA"⟩) =
      .ok (none, false) ∧
    controlStickGET (some "bob") "u2" 70 (some "Bob") "ipB"
        (some ⟨"alice", 60, "Alice", "ipA"⟩) =
      (.ok (), some ⟨"bob", 130, "Bob", "ipB"⟩, some "bob") := by
  have hgrant : ∀ (sid0 : Option String) (fresh : String) (now : ℚ) (nm ip : String),
      controlStickGET sid0 fresh now (some nm) ip none =
        (.ok (), some ⟨sid0.getD fresh, now + 60,
          if pyStrip nm = "" then "Anonymous" else pyStrip nm, ip⟩,
         some (sid0.getD fresh)) := by
    intro sid0 fresh now nm ip
    by_cases hnm : pyStrip nm = "" <;>
      simp [controlStickGET, controlStickTool, checkControlExpiration,
        CONTROL_STICK_TIMEOUT, hnm]
  have hlapse : ∀ (sid0 : Option String) (fresh : String) (now : ℚ) (nm ip : String)
      (s : Stick), s.tmout < now →
      controlStickGET sid0 fresh now (some nm) ip (some s) =
        (.ok (), some ⟨sid0.getD fresh, now + 60,
          if pyStrip nm = "" then "Anonymous" else pyStrip nm, ip⟩,
         some (sid0.getD fresh)) := by
    intro sid0 fresh now nm ip s h
    by_cases hnm : pyStrip nm = "" <;>
      simp [controlStickGET, controlStickTool, checkControlExpiration,
        CONTROL_STICK_TIMEOUT, hnm, gt_iff_lt, h]
  have hdeny : ∀ (sid0 : Option String) (fresh : String) (now : ℚ) (nm ip : String)
      (s : Stick), now ≤ s.tmout → sid0 ≠ some s.sid →
      controlStickGET sid0 fresh now (some nm) ip (some s) =
        (.error (.httpError402 s.name s.ip (s.tmout - now)), some s, sid0) := by
    intro sid0 fresh now nm ip s h1 h2
    have h3 : ¬ (s.tmout < now) := not_lt.mpr h1
    have h4 : some s.sid ≠ sid0 := Ne.symm h2
    by_cases hnm : pyStrip nm = "" <;>
      simp [controlStickGET, controlStickTool, checkControlExpiration,
        gt_iff_lt, h3, h4, hnm]
  have htouch : ∀ (s : Stick) (now : ℚ), s.tmout < now →
      controlStickTool false (some s.sid) now (some s) = .ok (none, false) := by
    intro s now h
    simp [controlStickTool, checkControlExpiration, gt_iff_lt, h]
  refine ⟨hgrant, hlapse, hdeny, htouch, ?_, ?_, ?_, ?_⟩
  · rw [hgrant (some "alice") "u1" 0 "Alice" "ipA"]
    norm_num [Option.getD, (by decide : pyStrip "Alice" = "Alice"),
      (by decide : ("Alice" : String) ≠ "")]
  · rw [hdeny (some "bob") "u2" 10 "Bob" "ipB" ⟨"alice", 60, "Alice", "ipA"⟩
      (by norm_num) (by decide)]
    norm_num
  · exact htouch ⟨"alice", 60, "Alice", "ipA"⟩ 70 (by norm_num)
  · rw [hlapse (some "bob") "u2" 70 "Bob" "ipB" ⟨"alice", 60, "Alice", "ipA"⟩
      (by norm_num)]
    norm_num [Option.getD, (by decide : pyStrip "Bob" = "Bob"),
      (by decide : ("Bob" : String) ≠ "")]

/-- Witness for C4: a lapsed lease at t=70 lets a different caller acquire. -/
theorem controlStick_lease_machine_witness :
    (⟨"alice", 60, "Alice", "ipA"⟩ : Stick).tmout < 70 ∧
    controlStickGET (some "bob") "u2" 70 (some "Bob") "ipB"
        (some ⟨"alice", 60, "Alice", "ipA"⟩) =
      (.ok (), some ⟨(some "bob" : Option String).getD "u2", 70 + 60,
        if pyStrip "Bob" = "" then "Anonymous" else pyStrip "Bob", "ipB"⟩,
       some ((some "bob" : Option String).getD "u2")) :=
  ⟨by norm_num,
   controlStick_lease_machine.2.1 (some "bob") "u2" 70 "Bob" "ipB"
     ⟨"alice", 60, "Alice", "ipA"⟩ (by norm_num)⟩

/-- C8: with the lease unheld, a takeStick request with the name argument
absent does not grant the stick under a default display name: line 302
calls `name.strip()` before the `None` check, so the handler raises
`AttributeError` and the lease stays unheld. -/
theorem takeStick_absent_name_raises (sid0 : Option String) (fresh : String)
    (now : ℚ) (ip : String) :
    controlStickGET sid0 fresh now none ip none =
      (.error .attributeError, none, sid0) ∧
    (controlStickGET sid0 fresh now none ip none).1 ≠ .ok () := by
  constructor
  · rfl
  · intro hc
    simp [controlStickGET, controlStickTool, checkControlExpiration] at hc

/-- Evaluation of a `getRegister` transaction against a device that hands
back `val` and then error byte `errv`. -/
theorem getRegister_run (addr reg val errv : ℕ) (log0 : List BusOp) :
    getRegister addr reg ⟨[val, errv], log0⟩ =
      ((if errv ≠ 0 then
          match opErrorsGet errv with
          | some e => .error (.ioError e.1 e.2)
          | none => .error .keyError
        else .ok val),
       ⟨[], log0 ++ [.writeByte addr reg, .settleDelay, .readByte addr,
          .writeByte addr RegErr, .settleDelay, .readByte addr]⟩) := by
  by_cases h0 : errv = 0
  · simp [getRegister, getError, busWriteByte, busSettle, busReadByte, h0]
  · rcases hfind : opErrorsGet errv with _ | e <;>
      simp [getRegister, getError, busWriteByte, busSettle, busReadByte, h0, hfind]

/-- Evaluation of a `setRegister` transaction against a device that hands
back error byte `errv`. -/
theorem setRegister_run (addr reg val errv : ℕ) (log0 : List BusOp) :
    setRegister addr reg val ⟨[errv], log0⟩ =
      ((if errv ≠ 0 then
          match opErrorsGet errv with
          | some e => .error (.ioError e.1 e.2)
          | none => .error .keyError
        else .ok ()),
       ⟨[], log0 ++ [.writeByteData addr reg val, .settleDelay,
          .writeByte addr RegErr, .settleDelay, .readByte addr]⟩) := by
  by_cases h0 : errv = 0
  · simp [setRegister, getError, busWriteByteData, busWriteByte, busSettle,
      busReadByte, h0]
  · rcases hfind : opErrorsGet errv with _ | e <;>
      simp [setRegister, getError, busWriteByteData, busWriteByte, busSettle,
        busReadByte, h0, hfind]

/-- Counterexample to C5 as stated: an error byte with the two lowest flags
set (3 = eDLen bit 0 plus eNoReg bit 1) is not decoded to the failure of
its lowest set bit; the table lookup fails and `KeyError` propagates. -/
theorem getError_multiflag_cex :
    Nat.testBit 3 0 = true ∧ Nat.testBit 3 1 = true ∧
    (getRegister 42 98 ⟨[7, 3], []⟩).1 = .error .keyError ∧
    (getRegister 42 98 ⟨[7, 3], []⟩).1 ≠
      .error (.ioError "eDLen" "Data length - too much or too little data") := by
  have h := getRegister_run 42 98 7 3 []
  refine ⟨by decide, by decide, ?_, ?_⟩
  · rw [h]
    norm_num [opErrorsGet, OpErrors]
  · rw [h]
    norm_num [opErrorsGet, OpErrors]
    decide

/-- C5 (amended): every register-bus transaction (read and write modelled)
reads the error register — address write, settle, read — after its transfer
phase; a non-zero error byte equal to one defined flag of the table raises
the typed `IOError` carrying that flag's code and message; but an error
byte with several bit flags set is never a key of the table, so the lookup
fails and `KeyError` propagates instead of the lowest-bit failure. -/
theorem registerBus_error_decode (addr reg val errv : ℕ) :
    (getRegister addr reg ⟨[val, errv], []⟩).2.log =
      [.writeByte addr reg, .settleDelay, .readByte addr,
       .writeByte addr RegErr, .settleDelay, .readByte addr] ∧
    (setRegister addr reg val ⟨[errv], []⟩).2.log =
      [.writeByteData addr reg val, .settleDelay,
       .writeByte addr RegErr, .settleDelay, .readByte addr] ∧
    (∀ c2 m2, (errv, (c2, m2)) ∈ OpErrors →
      (getRegister addr reg ⟨[val, errv], []⟩).1 = .error (.ioError c2 m2)) ∧
    (∀ i j2, i ≠ j2 → Nat.testBit errv i = true → Nat.testBit errv j2 = true →
      (getRegister addr reg ⟨[val, errv], []⟩).1 = .error .keyError) := by
  refine ⟨?_, ?_, ?_, ?_⟩
  · rw [getRegister_run]
    rfl
  · rw [setRegister_run]
    rfl
  · intro c2 m2 hmem
    simp only [OpErrors, List.mem_cons, List.not_mem_nil, or_false,
      Prod.mk.injEq] at hmem
    obtain h | h | h | h | h | h := hmem <;>
      · obtain ⟨rfl, rfl, rfl⟩ := h
        rw [getRegister_run]
        norm_num [opErrorsGet, OpErrors]
  · intro i j2 hij hi hj
    have h0 : errv ≠ 0 := by
      intro h
      rw [h, Nat.zero_testBit] at hi
      exact Bool.false_ne_true hi
    have hpow : ∀ k : ℕ, errv ≠ 2 ^ k := by
      intro k hk
      apply hij
      have hik : i = k := by
        by_contra hik
        rw [hk, Nat.testBit_two_pow_of_ne (fun h => hik h.symm)] at hi
        exact Bool.false_ne_true hi
      have hjk : j2 = k := by
        by_contra hjk
        rw [hk, Nat.testBit_two_pow_of_ne (fun h => hjk h.symm)] at hj
        exact Bool.false_ne_true hj
      rw [hik, hjk]
    have h1 : errv ≠ 1 := by simpa using hpow 0
    have h2 : errv ≠ 2 := by simpa using hpow 1
    have h4 : errv ≠ 4 := by simpa using hpow 2
    have h8 : errv ≠ 8 := by simpa using hpow 3
    have h16 : errv ≠ 16 := by simpa using hpow 4
    have h32 : errv ≠ 32 := by simpa using hpow 5
    have hnone : opErrorsGet errv = none := by
      simp [opErrorsGet, OpErrors, List.find?, beq_eq_decide, Ne.symm h1,
        Ne.symm h2, Ne.symm h4, Ne.symm h8, Ne.symm h16, Ne.symm h32]
    rw [getRegister_run]
    simp [hnone, h0]

/-- Witness for C5 (amended): error byte 4 (single flag ePLimit) on a read
transaction raises the position-limit failure from the table. -/
theorem registerBus_error_decode_witness :
    ((4 : ℕ), ("ePLimit", "Position to set is out of poistion limits")) ∈ OpErrors ∧
    (getRegister 1 98 ⟨[7, 4], []⟩).1 =
      .error (.ioError "ePLimit" "Position to set is out of poistion limits") :=
  ⟨by decide, (registerBus_error_decode 1 98 7 4).2.2.1 "ePLimit"
     "Position to set is out of poistion limits" (by decide)⟩
